import Mathlib

/-!
Verification development for the pi-home-dash repository.

Shallow embedding of the core subsystems that the specification's claims
talk about:

* `IT8951` — the display driver `src/display/it8951_driver.py`
  (`IT8951Driver.update` and `_simulate_update`), as an explicit state
  machine over `DriverState`.
* `ImageProc` — the image pipeline `src/display/image_processor.py`:
  `_apply_dithering` at pixel level over exact rationals, and
  `process_for_eink` as a control-flow model of its try/except structure.
* `Sched` — the scheduler `PiHomeDashboard._calculate_next_update_time`
  and the continuous-loop bookkeeping of `run_continuous` in
  `src/main.py`, over a seconds-since-epoch clock.
* `Retry` — `PiHomeDashboard._initialize_persistent_browser_with_retry`.

Machine integers do not overflow in any of the embedded code paths
(Python integers are unbounded), so counters and timestamps are `Nat`.
The dithering arithmetic is `float32` in the source; it is embedded over
`ℚ` (every intermediate value here is a small dyadic rational, and the
claims under scrutiny concern pixel-visit order, thresholds, weights and
determinism, not rounding).  Fallible operations (hardware writes, file
saves, browser starts) are modelled by explicit outcome parameters,
mirroring where the Python try/except handlers sit.
-/

namespace IT8951

/-- The two kinds of panel write issued by `IT8951Driver.update`:
`full` is `draw_full(GC16)`, `part` is `draw_partial(DU)`. -/
inductive RefreshKind
  | full
  | part
  deriving DecidableEq

/-- Mutable driver state of `IT8951Driver` (constructor, lines 24–47).
Images are abstracted to `Nat` identifiers: the refresh decision only
inspects `last_image is None`, never the pixel content.  `last_update_time`
is seconds; `it8951_available` models the module-level `IT8951_AVAILABLE`
library probe and `mock_mode` the mock `settings.display_type` flag. -/
structure DriverState where
  partial_refresh_count : Nat
  last_update_time : Nat
  last_image : Option Nat
  hardware_initialized : Bool
  mock_mode : Bool
  it8951_available : Bool
  deriving DecidableEq

/-- The debug-image save inside `_simulate_update` (lines 205–222): it can
fail (unwritable directory), which the Python models as a raised exception. -/
def simulate_save (save_fails : Bool) : Except Unit Unit :=
  if save_fails then .error () else .ok ()

/-- `IT8951Driver._simulate_update` (lines 197–230): the save is wrapped in
its own try/except (the exception is logged and swallowed), and the function
returns `True` unconditionally; the `time.sleep` calls do not affect state. -/
def simulate_update (save_fails : Bool) : Bool :=
  match simulate_save save_fails with
  | .ok _ => true
  | .error _ => true

/-- `IT8951Driver.update` (lines 84–161).  Returns the post state, the
boolean result, and which kind of write was performed (`none` when no write
happened).  `write_raises` models the hardware `paste`/`draw_full`/
`draw_partial` raising: in the source the refresh counter is updated only
after those calls, and `last_update_time`/`last_image` after that, so a
raising write leaves the whole state unchanged and the outer `except`
returns `False`.  The optional `region` argument only selects which pixels
are written and never affects state, result, or refresh kind, so it is not
modelled. -/
def update (limit : Nat) (s : DriverState) (img : Option Nat)
    (force_full_refresh : Bool) (write_raises : Bool) (save_fails : Bool)
    (now : Nat) : DriverState × Bool × Option RefreshKind :=
  match img with
  | none => (s, false, none)
  | some im =>
    let need_full_refresh : Bool :=
      force_full_refresh || decide (s.partial_refresh_count ≥ limit)
        || s.last_image.isNone
    if s.mock_mode || !s.it8951_available then
      let s1 := { s with partial_refresh_count :=
        if need_full_refresh then 0 else s.partial_refresh_count + 1 }
      (s1, simulate_update save_fails,
        some (if need_full_refresh then .full else .part))
    else if !s.hardware_initialized then
      (s, false, none)
    else if write_raises then
      (s, false, none)
    else
      ({ s with
          partial_refresh_count :=
            if need_full_refresh then 0 else s.partial_refresh_count + 1,
          last_update_time := now,
          last_image := some im },
        true, some (if need_full_refresh then .full else .part))

/-- A freshly constructed driver (`__init__`, lines 29–36): zero refresh
count, no committed image, no timestamp. -/
def freshState (mock available hw : Bool) : DriverState :=
  { partial_refresh_count := 0, last_update_time := 0, last_image := none,
    hardware_initialized := hw, mock_mode := mock, it8951_available := available }

/-- Fresh driver on real hardware: library importable, not mock,
`_init_display` succeeded. -/
def freshHardware : DriverState := freshState false true true

/-- Fresh driver in mock mode: `display_type` set to mock, so `_init_display`
is never called and `hardware_initialized` stays `False`. -/
def freshMock : DriverState := freshState true true false

/-- Run `n` successive `update` calls with a valid image,
`force_full_refresh=False`, and no hardware/save failures, recording for
each call its boolean result and the kind of write performed. -/
def runUpdates (limit : Nat) : Nat → DriverState →
    DriverState × List (Bool × Option RefreshKind)
  | 0, s => (s, [])
  | n + 1, s =>
    let r := update limit s (some 0) false false false 0
    let rest := runUpdates limit n r.1
    (rest.1, r.2 :: rest.2)

/-- Hardware driver state after at least one committed frame, with refresh
count `c`: the steady shape every reachable hardware state has in a run of
`runUpdates`. -/
def hwSteady (c : Nat) : DriverState :=
  { partial_refresh_count := c, last_update_time := 0, last_image := some 0,
    hardware_initialized := true, mock_mode := false, it8951_available := true }

end IT8951

namespace ImageProc

/-- A bitmap as the numpy 2-d float array `_apply_dithering` works on:
rows of exact rationals standing for the float pixel intensities. -/
abbrev Grid := List (List ℚ)

/-- `img_array[y, x]`, with numpy's in-bounds access modelled totally
(the loop bounds keep every access in range for rectangular input). -/
def gridGet (g : Grid) (y x : Nat) : ℚ := (g.getD y []).getD x 0

/-- `img_array[y, x] = v`. -/
def gridSet (g : Grid) (y x : Nat) (v : ℚ) : Grid :=
  g.set y ((g.getD y []).set x v)

/-- `img_array[y, x] += d`. -/
def gridAdd (g : Grid) (y x : Nat) (d : ℚ) : Grid :=
  gridSet g y x (gridGet g y x + d)

/-- The body of the double loop in `_apply_dithering` (image_processor.py
lines 66–78): quantize at threshold `> 127`, write the quantized value,
and diffuse the error with weights 7/16 right, 3/16 below-left, 5/16
below, 1/16 below-right. -/
def fsPixel (g : Grid) (y x : Nat) : Grid :=
  let old_pixel := gridGet g y x
  let new_pixel : ℚ := if old_pixel > 127 then 255 else 0
  let error := old_pixel - new_pixel
  let g1 := gridSet g y x new_pixel
  let g2 := gridAdd g1 y (x + 1) (error * 7 / 16)
  let g3 := gridAdd g2 (y + 1) (x - 1) (error * 3 / 16)
  let g4 := gridAdd g3 (y + 1) x (error * 5 / 16)
  gridAdd g4 (y + 1) (x + 1) (error * 1 / 16)

/-- `for x in range(1, width - 1)`: the inner loop of `_apply_dithering`
over one row `y`; note it starts at column 1, not 0. -/
def fsRow (w y : Nat) (g : Grid) : Grid :=
  (List.range (w - 2)).foldl (fun g i => fsPixel g y (i + 1)) g

/-- `for y in range(height - 1)`: the outer loop of `_apply_dithering`. -/
def fsLoop (h w : Nat) (g : Grid) : Grid :=
  (List.range (h - 1)).foldl (fun g y => fsRow w y g) g

/-- `np.clip(img_array, 0, 255).astype(np.uint8)` per entry: clamp to
`[0, 255]` then truncate to an 8-bit value (floor, as the clamped value
is nonnegative). -/
def clipByte (v : ℚ) : Nat :=
  if v ≤ 0 then 0 else if 255 ≤ v then 255 else (⌊v⌋).toNat

/-- `ImageProcessor._apply_dithering` (lines 56–82) on its happy path:
`height, width = img_array.shape`, the Floyd–Steinberg double loop, then
clip and convert back to bytes.  A pure function of the input grid, so two
runs on the same input are definitionally identical. -/
def applyDithering (g : Grid) : List (List Nat) :=
  (fsLoop g.length (g.headD []).length g).map (fun row => row.map clipByte)

/-- Quantization described by the claim: threshold at intensity `> 127`,
output in {0, 255}. -/
def quantize (v : ℚ) : ℚ := if 127 < v then 255 else 0

/-- One visited pixel as the (amended) claim words it: quantize, then
propagate the quantization error with weight 7/16 to the right neighbour
and 3/16, 5/16, 1/16 to the below-left, below, below-right neighbours. -/
def diffuseStep (g : Grid) (y x : Nat) : Grid :=
  let v := gridGet g y x
  let e := v - quantize v
  gridAdd (gridAdd (gridAdd (gridAdd (gridSet g y x (quantize v))
    y (x + 1) (7 / 16 * e))
    (y + 1) (x - 1) (3 / 16 * e))
    (y + 1) x (5 / 16 * e))
    (y + 1) (x + 1) (1 / 16 * e)

/-- The pixels the (amended) claim says are visited, in row-major order:
every row except the last, every column except the first and the last. -/
def rowMajorVisits (h w : Nat) : List (Nat × Nat) :=
  (List.range (h - 1)).flatMap (fun y =>
    (List.range (w - 2)).map (fun i => (y, i + 1)))

/-- Reference formulation of the dithering step, written from the amended
claim's words: fold the per-pixel quantize-and-diffuse step over the
row-major visit list, then clamp to bytes. -/
def ditherRowMajor (g : Grid) : List (List Nat) :=
  ((rowMajorVisits g.length (g.headD []).length).foldl
      (fun g p => diffuseStep g p.1 p.2) g).map (fun row => row.map clipByte)

/-- Which of the four fallible processing steps raise, when executed.
`process_for_eink` has no other internal failure sources: each flag stands
for the corresponding PIL/numpy call raising. -/
structure ProcFaults where
  resize_raises : Bool
  convert_raises : Bool
  rotate_raises : Bool
  dither_raises : Bool
  deriving DecidableEq

/-- Images tagged by the transformations applied to them, enough to model
the control flow of `process_for_eink`: the claims about it concern which
image (or no image) comes back, not pixel values. -/
inductive EImg
  | source (id : Nat)
  | resized (i : EImg)
  | grayed (i : EImg)
  | rotated (i : EImg)
  | dithered (i : EImg)
  deriving DecidableEq

/-- Control flow of `_apply_dithering` (lines 56–86): its own try/except
returns the input image unchanged if dithering raises. -/
def apply_dithering_cf (f : ProcFaults) (img : EImg) : EImg :=
  if f.dither_raises then img else .dithered img

/-- Control flow of `ImageProcessor.process_for_eink` (lines 19–54).
`need_resize`/`need_convert` model the size-mismatch and mode tests;
`display_rotation ≠ 0` guards the rotation step.  A raise in resize,
convert or rotate propagates to the function's outer `except`, which
returns `None` (line 54); only the dithering step degrades gracefully.
The model is pure: the input image value is never altered. -/
def process_for_eink (f : ProcFaults) (need_resize need_convert : Bool)
    (display_rotation : Nat) (img : Option EImg) : Option EImg :=
  match img with
  | none => none
  | some i0 =>
    let s1 : Option EImg :=
      if need_resize then
        (if f.resize_raises then none else some (.resized i0))
      else some i0
    match s1 with
    | none => none
    | some i1 =>
      let s2 : Option EImg :=
        if need_convert then
          (if f.convert_raises then none else some (.grayed i1))
        else some i1
      match s2 with
      | none => none
      | some i2 =>
        let s3 : Option EImg :=
          if display_rotation ≠ 0 then
            (if f.rotate_raises then none else some (.rotated i2))
          else some i2
        match s3 with
        | none => none
        | some i3 => some (apply_dithering_cf f i3)

/-- The image reaching the dithering step when no earlier step raises:
resized/grayscaled/rotated as needed but not dithered. -/
def preDitherImage (need_resize need_convert : Bool) (rot : Nat)
    (i : EImg) : EImg :=
  let i1 := if need_resize then EImg.resized i else i
  let i2 := if need_convert then EImg.grayed i1 else i1
  if rot ≠ 0 then EImg.rotated i2 else i2

end ImageProc

namespace Sched

/-- `current_time.replace(second=0, microsecond=0)` over a
seconds-since-epoch clock. -/
def floorMinute (t : Nat) : Nat := t - t % 60

/-- `PiHomeDashboard._calculate_next_update_time` (main.py lines 255–317)
over seconds since the epoch (sub-second parts play no role: the code
zeroes them together with the seconds).  `datetime` minute/hour
arithmetic — `next_minute.minute`, `replace(minute=...)`, hour and day
rollover via `timedelta` — maps to the corresponding arithmetic on total
seconds. -/
def calculateNextUpdateTime (interval : Nat) (is_dakboard : Bool)
    (t : Nat) : Nat :=
  if 60 ≤ interval ∧ interval % 60 = 0 then
    let interval_minutes := interval / 60
    let next_minute := floorMinute t + 60
    let base :=
      if 1 < interval_minutes then
        let minutes_past_hour := next_minute / 60 % 60
        let next_aligned_minute :=
          (minutes_past_hour / interval_minutes + 1) * interval_minutes
        if 60 ≤ next_aligned_minute then
          (next_minute - minutes_past_hour * 60) + 3600
            + (next_aligned_minute - 60) * 60
        else
          (next_minute - minutes_past_hour * 60) + next_aligned_minute * 60
      else next_minute
    if is_dakboard then base + 5 else base
  else if interval < 60 then
    let next_minute := floorMinute t + 60
    if is_dakboard then next_minute + 5 else next_minute
  else
    t + interval

/-- The least multiple of `step` strictly greater than `t`
(`nextMultipleAfter_least` below proves this characterization): the
formalization of the claim's phrase "the next minute boundary after t that
is a multiple of interval/60 minutes", valid whenever interval/60 divides
60 so that such boundaries are exactly the multiples of `interval`. -/
def nextMultipleAfter (step t : Nat) : Nat := (t / step + 1) * step

/-- The scheduling rule as the amended claim words it: for a round-minute
interval larger than one minute, the first aligned boundary strictly
after the next minute boundary (plus the 5 s interactive offset); for a
one-minute interval and for sub-minute intervals, the next minute boundary
(plus offset); otherwise the reference time plus the interval. -/
def specNextUpdate (interval : Nat) (is_dakboard : Bool) (t : Nat) : Nat :=
  let offset := if is_dakboard then 5 else 0
  if 60 ≤ interval ∧ interval % 60 = 0 then
    if interval = 60 then floorMinute t + 60 + offset
    else nextMultipleAfter interval (floorMinute t + 60) + offset
  else if interval < 60 then floorMinute t + 60 + offset
  else t + interval

/-- The loop state of `run_continuous` that scheduling reads:
`intended_update_time` (main.py lines 460, 482, 494). -/
structure LoopState where
  intended_update_time : Option Nat
  deriving DecidableEq

/-- The tail of one `run_continuous` iteration (main.py lines 480–494):
with `now` the completion clock reading, compute
`next_update_time = _calculate_next_update_time(intended_update_time or
current_time)`, sleep only when it lies in the future, and store it as the
next intended time.  Returns (new state, next_update_time, slept?).
A `datetime` is always truthy, so `or` picks `now` only when the intended
time is `None` (the first iteration). -/
def loopIter (interval : Nat) (is_dakboard : Bool) (now : Nat)
    (s : LoopState) : LoopState × Nat × Bool :=
  let ref := s.intended_update_time.getD now
  let nxt := calculateNextUpdateTime interval is_dakboard ref
  ({ intended_update_time := some nxt }, nxt, decide (now < nxt))

end Sched

namespace Retry

/-- Outcome of one `renderer.start_persistent_browser` call as seen by
`_initialize_persistent_browser_with_retry`: success, a `False` return, or
a raised exception (the latter two are handled identically). -/
inductive StartOutcome
  | success
  | failure
  | raised
  deriving DecidableEq

/-- The `for attempt in range(1, max_retries + 1)` loop of
`_initialize_persistent_browser_with_retry` (main.py lines 96–116),
structurally recursing on the remaining attempts.  Returns the boolean
result, the list of attempt numbers actually made, and the list of
`time.sleep` delays performed (a delay happens only when
`attempt < max_retries`). -/
def attemptLoop (outcomes : Nat → StartOutcome) (retry_delay : Nat) :
    Nat → Nat → Bool × List Nat × List Nat
  | _, 0 => (false, [], [])
  | attempt, r + 1 =>
    match outcomes attempt with
    | .success => (true, [attempt], [])
    | _ =>
      ((attemptLoop outcomes retry_delay (attempt + 1) r).1,
        attempt :: (attemptLoop outcomes retry_delay (attempt + 1) r).2.1,
        (if 0 < r then [retry_delay] else [])
          ++ (attemptLoop outcomes retry_delay (attempt + 1) r).2.2)

/-- `_initialize_persistent_browser_with_retry` with its default
parameters `max_retries=3, retry_delay=5`, starting at attempt 1. -/
def initialize_persistent_browser_with_retry
    (outcomes : Nat → StartOutcome) : Bool × List Nat × List Nat :=
  attemptLoop outcomes 5 1 3

end Retry

namespace IT8951

/-- One successful hardware update from a steady state: full write exactly
when the counter has reached the limit. -/
lemma update_hwSteady (limit c : Nat) :
    update limit (hwSteady c) (some 0) false false false 0 =
      (hwSteady (if limit ≤ c then 0 else c + 1), true,
        some (if limit ≤ c then RefreshKind.full else RefreshKind.part)) := by
  by_cases h : limit ≤ c <;> simp [update, hwSteady, h]

/-- The first update on a fresh hardware driver is a full write
(`last_image is None`) and lands in the steady state with count 0. -/
lemma update_fresh (limit : Nat) :
    update limit freshHardware (some 0) false false false 0 =
      (hwSteady 0, true, some RefreshKind.full) := by
  simp [update, freshHardware, freshState, hwSteady]

lemma succ_mod_eq_zero_iff (L j : Nat) :
    (j + 1) % (L + 1) = 0 ↔ j % (L + 1) = L := by
  have h1 : j % (L + 1) < L + 1 := Nat.mod_lt _ (by omega)
  have h2 : (j + 1) % (L + 1) = (j % (L + 1) + 1) % (L + 1) := by
    conv_lhs => rw [← Nat.div_add_mod j (L + 1)]
    rw [Nat.add_assoc, Nat.mul_add_mod]
  rcases eq_or_lt_of_le (Nat.le_of_lt_succ h1) with hr | hr
  · rw [h2, hr]
    simp [Nat.mod_self, hr]
  · rw [h2, Nat.mod_eq_of_lt (by omega)]
    omega

/-- Trace of a run started in a steady state with count `c ≤ limit`: the
`j`-th call succeeds and is a full write exactly when `c + j` hits the
limit modulo `limit + 1`. -/
lemma runUpdates_hwSteady (limit : Nat) :
    ∀ n c, c ≤ limit →
      (runUpdates limit n (hwSteady c)).2 =
        (List.range n).map (fun j =>
          (true, some (if (c + j) % (limit + 1) = limit
            then RefreshKind.full else RefreshKind.part))) := by
  intro n
  induction n with
  | zero => intro c _; simp [runUpdates]
  | succ n ih =>
    intro c hc
    rw [List.range_succ_eq_map]
    by_cases h : limit ≤ c
    · have hceq : c = limit := le_antisymm hc h
      subst hceq
      simp only [runUpdates, update_hwSteady, if_pos h, List.map_cons,
        ih 0 (Nat.zero_le _), List.map_map, List.cons.injEq]
      refine ⟨?_, ?_⟩
      · rw [Nat.add_zero, Nat.mod_eq_of_lt (by omega), if_pos rfl]
      · apply List.map_congr_left
        intro j _
        have hcj : c + (j + 1) = j + (c + 1) := by omega
        simp only [Function.comp_apply, Nat.succ_eq_add_one, hcj,
          Nat.add_mod_right, Nat.zero_add]
    · simp only [runUpdates, update_hwSteady, if_neg h, List.map_cons,
        ih (c + 1) (by omega), List.map_map, List.cons.injEq]
      refine ⟨?_, ?_⟩
      · rw [Nat.add_zero, Nat.mod_eq_of_lt (by omega), if_neg (by omega)]
      · apply List.map_congr_left
        intro j _
        have hcj : c + (j + 1) = (c + 1) + j := by omega
        simp only [Function.comp_apply, Nat.succ_eq_add_one, hcj]

end IT8951

namespace ImageProc

/-- The claim's wording of one dithering step agrees with the code's:
the two differ only in how the weight products are written. -/
lemma diffuseStep_eq (g : Grid) (y x : Nat) :
    diffuseStep g y x = fsPixel g y x := by
  have h7 : ∀ e : ℚ, (7 : ℚ) / 16 * e = e * 7 / 16 := fun e => by ring
  have h3 : ∀ e : ℚ, (3 : ℚ) / 16 * e = e * 3 / 16 := fun e => by ring
  have h5 : ∀ e : ℚ, (5 : ℚ) / 16 * e = e * 5 / 16 := fun e => by ring
  have h1 : ∀ e : ℚ, (1 : ℚ) / 16 * e = e * 1 / 16 := fun e => by ring
  simp only [diffuseStep, fsPixel, quantize, gt_iff_lt, h7, h3, h5, h1]

/-- Folding over a flattened list of lists is the nested fold. -/
lemma foldl_flatMap_eq {α β γ : Type} (l : List α) (f : α → List β)
    (g : γ → β → γ) (i : γ) :
    (l.flatMap f).foldl g i =
      l.foldl (fun acc a => (f a).foldl g acc) i := by
  induction l generalizing i with
  | nil => rfl
  | cons a l ih => simp [List.flatMap_cons, List.foldl_append, ih]

end ImageProc

namespace Sched

/-- `nextMultipleAfter step t` is the least multiple of `step` strictly
greater than `t`. -/
lemma nextMultipleAfter_least (step t : Nat) (h : 0 < step) :
    t < nextMultipleAfter step t ∧ nextMultipleAfter step t % step = 0 ∧
      ∀ b, b % step = 0 → t < b → nextMultipleAfter step t ≤ b := by
  have hdm := Nat.div_add_mod t step
  have hlt : t % step < step := Nat.mod_lt _ h
  refine ⟨?_, ?_, ?_⟩
  · have h3 : (t / step + 1) * step = step * (t / step) + step := by ring
    unfold nextMultipleAfter
    omega
  · exact Nat.mul_mod_left _ _
  · intro b hb ht
    have hbdm := Nat.div_add_mod b step
    have hq : t / step + 1 ≤ b / step := by
      rcases Nat.lt_or_ge (t / step) (b / step) with h1 | h1
      · omega
      · exfalso
        have h2 : step * (b / step) ≤ step * (t / step) :=
          Nat.mul_le_mul_left _ h1
        omega
    have h5 : step * (t / step + 1) ≤ step * (b / step) :=
      Nat.mul_le_mul_left _ hq
    have h6 : step * (t / step + 1) = step * (t / step) + step := by ring
    have h7 : (t / step + 1) * step = step * (t / step + 1) :=
      Nat.mul_comm _ _
    unfold nextMultipleAfter
    omega

/-- The multi-minute aligned branch of the scheduler, rewritten in total
minutes `M` (the reference time's next minute boundary is `60 * M`),
equals the least multiple of the interval strictly beyond that boundary —
provided the interval-in-minutes `im` divides 60, so that minutes-past-hour
alignment agrees with absolute alignment. -/
lemma main_branch_eq (im M : Nat) (him : 1 < im) (hdvd : im ∣ 60) :
    (if 60 ≤ (M % 60 / im + 1) * im then
        (60 * M - M % 60 * 60) + 3600 + ((M % 60 / im + 1) * im - 60) * 60
      else
        (60 * M - M % 60 * 60) + (M % 60 / im + 1) * im * 60)
      = (60 * M / (60 * im) + 1) * (60 * im) := by
  have h60 : 60 * M / (60 * im) = M / im := Nat.mul_div_mul_left M im (by omega)
  have hb := Nat.div_add_mod (M % 60) im
  have hc := Nat.div_add_mod M im
  have hr : M % 60 % im = M % im := Nat.mod_mod_of_dvd M hdvd
  have hrlt : M % 60 % im < im := Nat.mod_lt _ (by omega)
  have hmlt : M % 60 < 60 := Nat.mod_lt _ (by omega)
  have hmle : M % 60 ≤ M := Nat.mod_le _ _
  have hsucc : (M % 60 / im + 1) * im = im * (M % 60 / im) + im := by ring
  have hrhs : (M / im + 1) * (60 * im) = 60 * (im * (M / im)) + 60 * im := by
    ring
  rw [h60, hrhs, hsucc]
  have hxle : im * (M % 60 / im) ≤ M % 60 := by omega
  split <;> omega

end Sched

namespace Retry

/-- A non-successful attempt records its number, sleeps the configured
delay unless it is the last attempt, and continues with the next one. -/
lemma attemptLoop_fail (outcomes : Nat → StartOutcome)
    (d a r : Nat) (h : outcomes a ≠ .success) :
    attemptLoop outcomes d a (r + 1) =
      ((attemptLoop outcomes d (a + 1) r).1,
        a :: (attemptLoop outcomes d (a + 1) r).2.1,
        (if 0 < r then [d] else [])
          ++ (attemptLoop outcomes d (a + 1) r).2.2) := by
  cases o : outcomes a with
  | success => exact absurd o h
  | failure => simp [attemptLoop, o]
  | raised => simp [attemptLoop, o]

end Retry

/-- C1 (amended).  On the hardware path, for every sequence of `update`
calls with `force_full_refresh=false` from a freshly constructed driver
with `eink_partial_refresh_limit = L ≥ 1`, every call succeeds and the
driver performs a Full write at the 1st, (L+2)th, (2L+3)th, ... calls —
i.e. at 1-indexed call `k` exactly when `k ≡ 1 (mod L+1)`, one Full
followed by `L` Partials repeating — and a Partial write at every other
call.  (The claim's cadence `1, L+1, 2L+1, …` is wrong: the first write is
full because `last_image is None` and leaves the count at 0, so `L`
partials fit before the counter reaches `L`.) -/
theorem C1_amended (limit n : Nat) (hL : 1 ≤ limit) :
    (IT8951.runUpdates limit n IT8951.freshHardware).2 =
      (List.range n).map (fun i =>
        (true, some (if i % (limit + 1) = 0
          then IT8951.RefreshKind.full else IT8951.RefreshKind.part))) := by
  cases n with
  | zero => simp [IT8951.runUpdates]
  | succ n =>
    rw [List.range_succ_eq_map]
    simp only [IT8951.runUpdates, IT8951.update_fresh, List.map_cons,
      IT8951.runUpdates_hwSteady limit n 0 (Nat.zero_le _), List.map_map,
      List.cons.injEq]
    refine ⟨?_, ?_⟩
    · rw [Nat.zero_mod, if_pos rfl]
    · apply List.map_congr_left
      intro j _
      have h := IT8951.succ_mod_eq_zero_iff limit j
      by_cases hj : j % (limit + 1) = limit
      · simp only [Function.comp_apply, Nat.succ_eq_add_one, Nat.zero_add,
          hj, if_pos rfl, h.mpr hj]
      · have hnz : ¬ (j + 1) % (limit + 1) = 0 := fun hh => hj (h.mp hh)
        simp only [Function.comp_apply, Nat.succ_eq_add_one, Nat.zero_add,
          if_neg hj, if_neg hnz]

/-- C1 witness: the amended cadence instantiated at L = 10 over 13 calls. -/
theorem C1_witness :
    1 ≤ 10 ∧
    (IT8951.runUpdates 10 13 IT8951.freshHardware).2 =
      (List.range 13).map (fun i =>
        (true, some (if i % (10 + 1) = 0
          then IT8951.RefreshKind.full else IT8951.RefreshKind.part))) :=
  ⟨by decide, C1_amended 10 13 (by decide)⟩

/-- C1 counterexample.  With `L = 1` the claim predicts Full writes at
calls 1 and L+1 = 2, but the code performs a Partial at call 2: after the
first (forced-by-`last_image`) full write the count is 0, which is below
the limit. -/
theorem C1_counterexample :
    (IT8951.runUpdates 1 2 IT8951.freshHardware).2 =
      [(true, some IT8951.RefreshKind.full),
        (true, some IT8951.RefreshKind.part)] ∧
    [(true, some IT8951.RefreshKind.full),
        (true, some IT8951.RefreshKind.part)] ≠
      [(true, some IT8951.RefreshKind.full),
        (true, some IT8951.RefreshKind.full)] := by
  decide

/-- C2.  The simulation path does NOT advance the refresh cadence the way
the hardware path does: `update` returns from the simulation branch before
`last_image` is ever assigned (it8951_driver.py line 114 vs. line 154), so
in mock mode `last_image is None` holds forever, every simulated update is
a Full write, and the count stays 0 — while the hardware path on the same
two inputs performs Full then Partial with counts 0 then 1. -/
theorem C2_divergence :
    (IT8951.runUpdates 10 2 IT8951.freshMock).2 =
      [(true, some IT8951.RefreshKind.full),
        (true, some IT8951.RefreshKind.full)] ∧
    (IT8951.runUpdates 10 2 IT8951.freshHardware).2 =
      [(true, some IT8951.RefreshKind.full),
        (true, some IT8951.RefreshKind.part)] ∧
    (IT8951.runUpdates 10 2 IT8951.freshMock).1.partial_refresh_count = 0 ∧
    (IT8951.runUpdates 10 2 IT8951.freshHardware).1.partial_refresh_count = 1 ∧
    (IT8951.runUpdates 10 2 IT8951.freshMock).1.last_image = none := by
  decide

/-- C3 (amended).  Immediately after any successful `update`, the stored
`partial_refresh_count` lies in the closed interval `[0, L]` (it reaches
exactly `L` after the L-th consecutive partial write, and that value
triggers the limit-based full refresh on the next call), and it is 0
exactly when the call performed a full refresh. -/
theorem C3_amended (limit : Nat) (s : IT8951.DriverState) (img : Option Nat)
    (ff wr sf : Bool) (now : Nat)
    (hok : (IT8951.update limit s img ff wr sf now).2.1 = true) :
    (IT8951.update limit s img ff wr sf now).1.partial_refresh_count ≤ limit ∧
    ((IT8951.update limit s img ff wr sf now).1.partial_refresh_count = 0 ↔
      (IT8951.update limit s img ff wr sf now).2.2
        = some IT8951.RefreshKind.full) := by
  cases img with
  | none => simp [IT8951.update] at hok
  | some im =>
    by_cases hm : (s.mock_mode || !s.it8951_available) = true
    · by_cases hf : (ff || decide (s.partial_refresh_count ≥ limit)
          || s.last_image.isNone) = true
      · simp [IT8951.update, hm, hf]
      · have hlt : s.partial_refresh_count < limit := by
          simp only [Bool.or_eq_true, decide_eq_true_eq, not_or] at hf
          omega
        simp [IT8951.update, hm, hf]
        omega
    · by_cases hh : s.hardware_initialized = true
      · by_cases hw : wr = true
        · simp [IT8951.update, hm, hh, hw] at hok
        · by_cases hf : (ff || decide (s.partial_refresh_count ≥ limit)
              || s.last_image.isNone) = true
          · simp [IT8951.update, hm, hh, hw, hf]
          · have hlt : s.partial_refresh_count < limit := by
              simp only [Bool.or_eq_true, decide_eq_true_eq, not_or] at hf
              omega
            simp [IT8951.update, hm, hh, hw, hf]
            omega
      · simp [IT8951.update, hm, hh] at hok

/-- C3 witness: the bound instantiated on a concrete successful update. -/
theorem C3_witness :
    (IT8951.update 10 IT8951.freshHardware (some 0) false false false 0).1.partial_refresh_count
        ≤ 10 ∧
    ((IT8951.update 10 IT8951.freshHardware (some 0) false false false 0).1.partial_refresh_count
        = 0 ↔
      (IT8951.update 10 IT8951.freshHardware (some 0) false false false 0).2.2
        = some IT8951.RefreshKind.full) :=
  C3_amended 10 IT8951.freshHardware (some 0) false false false 0 (by decide)

/-- C3 counterexample.  With `L = 1`, after two successful updates from a
fresh hardware driver (full, then partial) the stored count is 1 = L,
which is not in the half-open interval `[0, L)` the claim asserts. -/
theorem C3_counterexample :
    (IT8951.runUpdates 1 2 IT8951.freshHardware).2.map (fun p => p.1)
      = [true, true] ∧
    (IT8951.runUpdates 1 2 IT8951.freshHardware).1.partial_refresh_count = 1 ∧
    ¬ (1 < 1) := by
  decide

/-- C4.  A `None` image, a hardware-expected-but-uninitialized driver, or a
raising panel write each make `update` return failure with the entire
driver state — `partial_refresh_count`, `last_image`, `last_update_time` —
unchanged, and no retry or write happens (the returned kind is `none`);
hence `last_image`/`last_update_time` are recorded only on success. -/
theorem C4_failure_unchanged (limit : Nat) (s : IT8951.DriverState)
    (img : Option Nat) (ff wr sf : Bool) (now : Nat)
    (h : img = none ∨ (s.mock_mode = false ∧ s.it8951_available = true ∧
        (s.hardware_initialized = false ∨ wr = true))) :
    IT8951.update limit s img ff wr sf now = (s, false, none) := by
  rcases h with h | ⟨hm, ha, h⟩
  · subst h; rfl
  · cases img with
    | none => rfl
    | some im =>
      rcases h with hh | hw
      · simp [IT8951.update, hm, ha, hh]
      · by_cases hh : s.hardware_initialized <;>
          simp [IT8951.update, hm, ha, hh, hw]

/-- C4 witness: updating with a `None` image fails and leaves the fresh
state untouched. -/
theorem C4_witness :
    IT8951.update 10 IT8951.freshHardware none false false false 0
      = (IT8951.freshHardware, false, none) :=
  C4_failure_unchanged 10 IT8951.freshHardware none false false false 0
    (Or.inl rfl)

/-- C5 (amended).  The black-white dithering step equals the reference
procedure written from the amended claim: visit, in row-major order, every
pixel outside the first column, the last column and the last row; quantize
each visited pixel to {0, 255} at threshold `> 127`; diffuse the
quantization error with weights 7/16 right and 3/16, 5/16, 1/16 to the row
below; then clamp to bytes.  Both sides are pure functions of the input,
so the computation is deterministic: two runs on equal inputs are equal. -/
theorem C5_amended (g : ImageProc.Grid) :
    ImageProc.applyDithering g = ImageProc.ditherRowMajor g := by
  have hfun : ImageProc.diffuseStep = ImageProc.fsPixel :=
    funext fun a => funext fun y => funext fun x =>
      ImageProc.diffuseStep_eq a y x
  unfold ImageProc.applyDithering ImageProc.ditherRowMajor
    ImageProc.rowMajorVisits ImageProc.fsLoop
  rw [hfun, ImageProc.foldl_flatMap_eq]
  congr 1
  apply List.foldl_ext
  intro acc y _
  rw [List.foldl_map]
  rfl

/-- C5 counterexample.  On the 2×3 all-100 grid, the pixel at row 0,
column 0 — which the claim says is visited (it is in neither the last
column nor the last row) and hence quantized to {0, 255} — comes out of
the code's dithering still equal to 100, because the inner loop
`range(1, width - 1)` skips the first column. -/
theorem C5_counterexample :
    ((ImageProc.applyDithering
        [[100, 100, 100], [100, 100, 100]]).getD 0 []).getD 0 0 = 100 ∧
    ¬ ((100 : Nat) = 0 ∨ (100 : Nat) = 255) := by
  constructor
  · have hget : ImageProc.gridGet [[100, 100, 100], [100, 100, 100]] 0 1
        = 100 := by
      norm_num [ImageProc.gridGet]
    have h1 : ImageProc.fsPixel [[100, 100, 100], [100, 100, 100]] 0 1 =
        [[100, 0, 575 / 4], [475 / 4, 525 / 4, 425 / 4]] := by
      simp only [ImageProc.fsPixel, hget]
      norm_num [ImageProc.gridGet, ImageProc.gridSet, ImageProc.gridAdd]
    have hgrid : ImageProc.fsLoop 2 3 [[100, 100, 100], [100, 100, 100]] =
        [[100, 0, 575 / 4], [475 / 4, 525 / 4, 425 / 4]] := by
      rw [show ImageProc.fsLoop 2 3 [[100, 100, 100], [100, 100, 100]] =
          ImageProc.fsPixel [[100, 100, 100], [100, 100, 100]] 0 1 by
        simp [ImageProc.fsLoop, ImageProc.fsRow, List.range_succ], h1]
    have hlen : ImageProc.applyDithering
        [[100, 100, 100], [100, 100, 100]] =
        (ImageProc.fsLoop 2 3 [[100, 100, 100], [100, 100, 100]]).map
          (fun row => row.map ImageProc.clipByte) := rfl
    rw [hlen, hgrid]
    norm_num [ImageProc.clipByte] <;> decide
  · decide

/-- C6 (amended).  For a non-None input, when the resize, grayscale and
rotation steps that actually execute do not raise, `process_for_eink`
always returns an image: with dithering failing it degrades to the plain
undithered (resized/grayscaled/rotated) image, otherwise it returns the
dithered one.  (The model is pure, so the input is never mutated.) -/
theorem C6_amended (f : ImageProc.ProcFaults) (nr nc : Bool) (rot : Nat)
    (i : ImageProc.EImg)
    (h1 : f.resize_raises = false ∨ nr = false)
    (h2 : f.convert_raises = false ∨ nc = false)
    (h3 : f.rotate_raises = false ∨ rot = 0) :
    ImageProc.process_for_eink f nr nc rot (some i) =
      some (if f.dither_raises then ImageProc.preDitherImage nr nc rot i
        else .dithered (ImageProc.preDitherImage nr nc rot i)) := by
  by_cases hr : rot = 0 <;>
    rcases h1 with h1 | h1 <;> rcases h2 with h2 | h2 <;>
      rcases h3 with h3 | h3 <;> cases nr <;> cases nc <;>
        by_cases hd : f.dither_raises = true <;>
          simp_all [ImageProc.process_for_eink, ImageProc.apply_dithering_cf,
            ImageProc.preDitherImage]

/-- C6 witness: raising dithering alone degrades to the undithered
resized-grayscaled-rotated image. -/
theorem C6_witness :
    ImageProc.process_for_eink ⟨false, false, false, true⟩ true true 90
        (some (ImageProc.EImg.source 0)) =
      some (ImageProc.preDitherImage true true 90 (ImageProc.EImg.source 0)) :=
  C6_amended ⟨false, false, false, true⟩ true true 90 (ImageProc.EImg.source 0)
    (Or.inl rfl) (Or.inl rfl) (Or.inl rfl)

/-- C6 counterexample.  A raising resize on a non-None input makes
`process_for_eink` return no image at all (its outer except returns
`None`), not the best partially-processed image the claim promises. -/
theorem C6_counterexample :
    ImageProc.process_for_eink ⟨true, false, false, false⟩ true true 0
        (some (ImageProc.EImg.source 0)) = none ∧
    (ImageProc.process_for_eink ⟨true, false, false, false⟩ true true 0
        (some (ImageProc.EImg.source 0))).isSome = false := by
  decide

/-- C7 (amended).  Whenever the interval-in-minutes divides 60 (so that
minutes-past-hour alignment is meaningful): for `interval = 60` and for
sub-minute intervals the next update lands on the next minute boundary
plus the 5-second DAKboard offset; for larger round-minute intervals it
lands on the first aligned boundary STRICTLY AFTER the next minute
boundary (so an aligned boundary coinciding with the very next minute is
skipped), plus the offset; for non-round intervals of at least 60 s it is
exactly the reference time plus the interval, with no offset. -/
theorem C7_amended (interval : Nat) (dak : Bool) (t : Nat)
    (hdvd : (interval / 60) ∣ 60) :
    Sched.calculateNextUpdateTime interval dak t =
      Sched.specNextUpdate interval dak t := by
  by_cases h60 : 60 ≤ interval ∧ interval % 60 = 0
  · have hi : interval = 60 * (interval / 60) := by
      have := Nat.div_add_mod interval 60
      omega
    by_cases him : 1 < interval / 60
    · have hne : interval ≠ 60 := by omega
      have hN : Sched.floorMinute t + 60 = 60 * (t / 60 + 1) := by
        have := Nat.div_add_mod t 60
        unfold Sched.floorMinute
        omega
      set M := t / 60 + 1 with hM
      have hmp : 60 * M / 60 % 60 = M % 60 := by
        rw [Nat.mul_div_cancel_left _ (by omega : (0:Nat) < 60)]
      simp only [Sched.calculateNextUpdateTime, Sched.specNextUpdate, h60,
        him, hne, hN, hmp, and_self, if_true, if_false]
      have heq := Sched.main_branch_eq (interval / 60) M him hdvd
      rw [← hi] at heq
      unfold Sched.nextMultipleAfter
      rw [heq]
      cases dak <;> simp
    · have hieq : interval = 60 := by omega
      subst hieq
      simp only [Sched.calculateNextUpdateTime, Sched.specNextUpdate,
        and_self, if_true, if_pos rfl]
      norm_num
      cases dak <;> simp
  · simp only [Sched.calculateNextUpdateTime, Sched.specNextUpdate,
      if_neg h60]
    by_cases hlt : interval < 60 <;> cases dak <;> simp [hlt]

/-- C7 witness: the claim's own examples.  Interval 300 s in DAKboard mode
from 12:03:10 (43390 s) gives 12:05:05 (43505 s), and interval 90 s from
12:00:00 (43200 s) gives 12:01:30 (43290 s) with no alignment. -/
theorem C7_witness :
    Sched.calculateNextUpdateTime 300 true 43390 =
        Sched.specNextUpdate 300 true 43390 ∧
    Sched.specNextUpdate 300 true 43390 = 43505 ∧
    Sched.calculateNextUpdateTime 90 false 43200 = 43290 :=
  ⟨C7_amended 300 true 43390 (by decide), by decide, by decide⟩

/-- C7 counterexample.  From reference 12:04:30 (43470 s) with a 300 s
interval in DAKboard mode, the next minute boundary after the reference
that is a multiple of 5 minutes is 12:05:00, so the claim demands
12:05:05 (43505 s); the code skips that boundary — the aligned-minute
formula moves strictly past the next minute boundary 12:05:00 — and
returns 12:10:05 (43805 s). -/
theorem C7_counterexample :
    Sched.calculateNextUpdateTime 300 true 43470 = 43805 ∧
    Sched.nextMultipleAfter 300 43470 + 5 = 43505 ∧
    (43805 : Nat) ≠ 43505 := by
  decide

/-- C8.  Once an intended update time `T` is set, the next scheduled time
computed at the end of a cycle is `_calculate_next_update_time(T)` — the
same value whatever the cycle's actual completion clock reads — and when
that value is already in the past the loop does not sleep yet still stores
exactly that originally-scheduled value as the next intended time, so
drift does not compound. -/
theorem C8_next_from_intended (interval : Nat) (dak : Bool)
    (T now now2 : Nat) :
    (Sched.loopIter interval dak now ⟨some T⟩).2.1 =
        Sched.calculateNextUpdateTime interval dak T ∧
    (Sched.loopIter interval dak now ⟨some T⟩).1 =
        (Sched.loopIter interval dak now2 ⟨some T⟩).1 ∧
    (Sched.calculateNextUpdateTime interval dak T ≤ now →
      (Sched.loopIter interval dak now ⟨some T⟩).2.2 = false ∧
      (Sched.loopIter interval dak now ⟨some T⟩).1.intended_update_time =
        some (Sched.calculateNextUpdateTime interval dak T)) := by
  refine ⟨rfl, rfl, fun h => ⟨?_, rfl⟩⟩
  simp [Sched.loopIter, Nat.not_lt.mpr h]

/-- C8 witness: an overrun cycle (completion at 50000 s, schedule from
intended time 43390 s) proceeds without sleeping and keeps the original
schedule. -/
theorem C8_witness :
    (Sched.loopIter 300 true 50000 ⟨some 43390⟩).2.1 =
        Sched.calculateNextUpdateTime 300 true 43390 ∧
    (Sched.loopIter 300 true 50000 ⟨some 43390⟩).1 =
        (Sched.loopIter 300 true 99999 ⟨some 43390⟩).1 ∧
    (Sched.calculateNextUpdateTime 300 true 43390 ≤ 50000 →
      (Sched.loopIter 300 true 50000 ⟨some 43390⟩).2.2 = false ∧
      (Sched.loopIter 300 true 50000 ⟨some 43390⟩).1.intended_update_time =
        some (Sched.calculateNextUpdateTime 300 true 43390)) :=
  C8_next_from_intended 300 true 43390 50000 99999

/-- C9.  When every `start_persistent_browser` attempt fails or raises,
the retry routine makes exactly the attempts 1, 2, 3 — never a fourth —
sleeps the fixed 5-second delay after attempt 1 and after attempt 2 but
not after the last attempt, and reports failure. -/
theorem C9_retry_three_attempts (outcomes : Nat → Retry.StartOutcome)
    (h : ∀ a, 1 ≤ a → a ≤ 3 → outcomes a ≠ .success) :
    Retry.initialize_persistent_browser_with_retry outcomes =
      (false, [1, 2, 3], [5, 5]) := by
  unfold Retry.initialize_persistent_browser_with_retry
  rw [Retry.attemptLoop_fail outcomes 5 1 2 (h 1 (by omega) (by omega)),
    Retry.attemptLoop_fail outcomes 5 2 1 (h 2 (by omega) (by omega)),
    Retry.attemptLoop_fail outcomes 5 3 0 (h 3 (by omega) (by omega))]
  simp [Retry.attemptLoop]

/-- C9 witness: with every attempt returning failure, the trace is
attempts [1, 2, 3], sleeps [5, 5], result failure. -/
theorem C9_witness :
    Retry.initialize_persistent_browser_with_retry
        (fun _ => Retry.StartOutcome.failure) =
      (false, [1, 2, 3], [5, 5]) :=
  C9_retry_three_attempts (fun _ => Retry.StartOutcome.failure)
    (fun _ _ _ h => Retry.StartOutcome.noConfusion h)

/-- C10.  In mock/simulation mode an `update` with a non-None image always
returns success, whatever the force flag or a failing debug-image save:
`_simulate_update` swallows the save error and returns `True`. -/
theorem C10_mock_update_succeeds (limit : Nat) (s : IT8951.DriverState)
    (im : Nat) (ff wr sf : Bool) (now : Nat)
    (h : s.mock_mode = true ∨ s.it8951_available = false) :
    (IT8951.update limit s (some im) ff wr sf now).2.1 = true := by
  have hm : (s.mock_mode || !s.it8951_available) = true := by
    rcases h with h | h <;> simp [h]
  have hsim : IT8951.simulate_update sf = true := by cases sf <;> rfl
  simp [IT8951.update, hm, hsim]

/-- C10 witness: a mock-mode update with a failing save still succeeds. -/
theorem C10_witness :
    (IT8951.update 10 IT8951.freshMock (some 0) false false true 0).2.1
      = true :=
  C10_mock_update_succeeds 10 IT8951.freshMock 0 false false true 0
    (Or.inl rfl)
